import Mathlib

/-!
Verification of the Course Planner (CSS499Category3.py) against its
specification.  The program's data and operations are shallowly embedded:
SQLite connections are modelled as a pair of record lists (`durable` =
committed on-disk contents, `pending` = the connection's current
transaction view), interactive input is modelled as explicit string
arguments or lists of strings consumed in order, and raised exceptions /
non-returning loops are modelled with `Option` results.
-/

/-! ### Python string primitives

The source manipulates Python `str` values with `.lower()`, `.upper()`,
`.strip()`, `.title()`, `.split()`, `.split(" ")` and `', '.join(...)`.
These are modelled character-by-character over `String.toList`. -/

/-- Python `str.lower()` (ASCII-faithful). -/
def pyLower (s : String) : String := ⟨s.toList.map Char.toLower⟩

/-- Python `str.upper()` (ASCII-faithful). -/
def pyUpper (s : String) : String := ⟨s.toList.map Char.toUpper⟩

/-- Python `str.strip()`: remove leading and trailing whitespace. -/
def pyStrip (s : String) : String :=
  ⟨((s.toList.dropWhile Char.isWhitespace).reverse.dropWhile Char.isWhitespace).reverse⟩

/-- Helper for `pySplitWs`: accumulates the current word (reversed). -/
def splitWsAux : List Char → List Char → List String
  | [], cur => if cur.isEmpty then [] else [⟨cur.reverse⟩]
  | c :: cs, cur =>
    if c.isWhitespace then
      if cur.isEmpty then splitWsAux cs [] else ⟨cur.reverse⟩ :: splitWsAux cs []
    else splitWsAux cs (c :: cur)

/-- Python `str.split()` with no argument: split on runs of whitespace,
producing no empty fields. -/
def pySplitWs (s : String) : List String := splitWsAux s.toList []

/-- Helper for `pySplitSpace`: accumulates the current field (reversed). -/
def splitSpaceAux : List Char → List Char → List String
  | [], cur => [⟨cur.reverse⟩]
  | c :: cs, cur =>
    if c = ' ' then ⟨cur.reverse⟩ :: splitSpaceAux cs [] else splitSpaceAux cs (c :: cur)

/-- Python `str.split(" ")`: split on every single space, keeping empty fields. -/
def pySplitSpace (s : String) : List String := splitSpaceAux s.toList []

/-- Helper for `pyTitle`: the Boolean records whether the previous character
was alphabetic. -/
def pyTitleAux : Bool → List Char → List Char
  | _, [] => []
  | prevAlpha, c :: cs =>
    (if c.isAlpha then (if prevAlpha then c.toLower else c.toUpper) else c) ::
      pyTitleAux c.isAlpha cs

/-- Python `str.title()` (ASCII-faithful): the first alphabetic character of
each alphabetic run is uppercased, the rest lowercased. -/
def pyTitle (s : String) : String := ⟨pyTitleAux false s.toList⟩

/-! ### Course records and the course database

`Course` in the source (class `Course`, lines 29-35) carries id, title,
credits, description and prerequisites; the `courses` SQLite table stores
all five as TEXT, with prerequisites stored as the `', '.join(...)` of the
parsed token list (lines 44-49, 64-65). -/

/-- A row of the `courses` table (all columns TEXT). -/
structure CourseRec where
  id : String
  title : String
  credits : String
  description : String
  prerequisites : String
  deriving DecidableEq, Repr

instance : Inhabited CourseRec := ⟨⟨"", "", "", "", ""⟩⟩

/-- The course database as seen through a SQLite connection: `durable` is
the committed on-disk content, `pending` the connection's transaction view.
`commit` copies pending to durable; closing without commit (or `rollback`)
discards pending. -/
structure CourseDB where
  durable : List CourseRec
  pending : List CourseRec
  deriving DecidableEq, Repr

/-- Key order used by `ORDER BY id` (codepoint-wise lexicographic order,
matching SQLite byte order on ASCII data). -/
def strLe (a b : String) : Prop := a.toList ≤ b.toList

instance : DecidableRel strLe := fun a b => by unfold strLe; infer_instance

/-- `ORDER BY id` comparison on course records. -/
def recLe (a b : CourseRec) : Prop := strLe a.id b.id

instance : DecidableRel recLe := fun a b => by unfold recLe; infer_instance

instance : IsTotal CourseRec recLe := ⟨fun a b => le_total a.id.toList b.id.toList⟩

instance : IsTrans CourseRec recLe := ⟨fun _ _ _ h h' => le_trans (α := List Char) h h'⟩

/-- `SELECT ... ORDER BY id`: the stored rows sorted ascending by id. -/
def sortByKey (l : List CourseRec) : List CourseRec := l.insertionSort recLe

/-! ### Bulk load (`load_course_data`, lines 38-77)

The function opens its own connection, clears the table, inserts a record
per CSV row, and commits on success.  A row with fewer than 4 fields makes
it roll back and return `False`; inserting a duplicate id raises an
uncaught `sqlite3.IntegrityError` (the `id` column is the primary key), in
which case nothing was committed either. -/

/-- Line 63-65 of the source: for a row with more than 4 fields the
prerequisites variable is the token list `row[4].split()`, otherwise it is
the *string* `"None"`; either way it is then passed to `', '.join(...)`.
Joining the string `"None"` iterates its characters, producing
`"N, o, n, e"`. -/
def courseOfRow (row : List String) : CourseRec :=
  { id := row.getD 0 ""
    title := row.getD 1 ""
    credits := row.getD 2 ""
    description := row.getD 3 ""
    prerequisites :=
      if row.length > 4 then String.intercalate ", " (pySplitWs (row.getD 4 ""))
      else String.intercalate ", " ("None".toList.map Char.toString) }

/-- Outcome of inserting the snapshot rows into the cleared table. -/
inductive RowsOutcome where
  | rows (l : List CourseRec)
  | formatError
  | integrityError
  deriving DecidableEq, Repr

/-- The row-insertion loop of `load_course_data` (lines 57-69), acting on
the transaction view `acc` of the freshly cleared table. -/
def insertCourseRows : List (List String) → List CourseRec → RowsOutcome
  | [], acc => .rows acc
  | row :: rest, acc =>
    if 4 ≤ row.length then
      let c := courseOfRow row
      if acc.any (fun d => d.id == c.id) then .integrityError
      else insertCourseRows rest (acc ++ [c])
    else .formatError

/-- Result reported by `load_course_data`: `ok` is `return True`,
`formatError` is the rollback-and-`return False` path for a malformed row,
`integrityError` is the uncaught duplicate-primary-key exception. -/
inductive LoadResult where
  | ok
  | formatError
  | integrityError
  deriving DecidableEq, Repr

/-- `load_course_data` (lines 38-77): given the parsed snapshot rows and the
committed contents of `course_database.db`, returns the committed contents
after the call together with the outcome.  On success the whole table was
replaced and committed; on either failure the transaction was not
committed, so the durable contents are unchanged. -/
def load_course_data (snapshot : List (List String)) (db : List CourseRec) :
    List CourseRec × LoadResult :=
  match insertCourseRows snapshot [] with
  | .rows l => (l, .ok)
  | .formatError => (db, .formatError)
  | .integrityError => (db, .integrityError)

/-! ### User records and credential operations -/

/-- A row of the `users` table. -/
structure UserRec where
  username : String
  password : String
  deriving DecidableEq, Repr

/-- The user database as seen through `conn_users`: `durable` committed
contents, `pending` the transaction view. -/
structure UserDB where
  durable : List UserRec
  pending : List UserRec
  deriving DecidableEq, Repr

/-- One credential check of `login` (lines 123-132): the raw username input
is stripped and lowercased; the pair succeeds if it is the hardcoded master
pair `admin`/`admin` (checked first, before the store) or if a matching row
exists in the `users` table. -/
def loginAttempt (users : List UserRec) (rawUser pass : String) : Bool :=
  let username := pyLower (pyStrip rawUser)
  (username == "admin" && pass == "admin") ||
    users.any (fun u => u.username == username && u.password == pass)

/-- `login` (lines 121-136): a `while True` loop reading username/password
pairs until one authenticates, when it returns `True`.  The interactive
input is modelled as the list of attempted pairs; `some rest` means an
attempt succeeded with `rest` unconsumed, `none` means no attempt in the
stream succeeds — the source then blocks forever re-prompting, so `login`
never returns any failure indication to its caller. -/
def login (users : List UserRec) : List (String × String) → Option (List (String × String))
  | [] => none
  | (u, p) :: rest => if loginAttempt users u p then some rest else login users rest

/-- Result of `add_user` (lines 234-244). -/
inductive AddUserResult where
  | added
  | duplicate
  deriving DecidableEq, Repr

/-- `add_user` (lines 234-244): lowercases the stripped username, rejects a
duplicate, otherwise inserts; `conn_users.commit()` runs on both paths, so
the durable contents equal the transaction view afterwards. -/
def add_user (db : UserDB) (userIn passIn : String) : UserDB × AddUserResult :=
  let username := pyLower (pyStrip userIn)
  if db.pending.any (fun u => u.username == username) then
    ({ durable := db.pending, pending := db.pending }, .duplicate)
  else
    let p := db.pending ++ [{ username := username, password := passIn }]
    ({ durable := p, pending := p }, .added)

/-- Result of `delete_user` (lines 247-259). -/
inductive DeleteUserResult where
  | protectedIdentity
  | deleted
  | notFound
  deriving DecidableEq, Repr

/-- `delete_user` (lines 247-259): lowercases the stripped username;
`admin` is rejected by an early `return` (before any statement and before
the commit), an absent user reports not-found, a present user is deleted;
`conn_users.commit()` runs on the two non-protected paths. -/
def delete_user (db : UserDB) (userIn : String) : UserDB × DeleteUserResult :=
  let username := pyLower (pyStrip userIn)
  if username == "admin" then (db, .protectedIdentity)
  else if db.pending.any (fun u => u.username == username) then
    let p := db.pending.filter (fun u => ¬(u.username == username))
    ({ durable := p, pending := p }, .deleted)
  else ({ durable := db.pending, pending := db.pending }, .notFound)

/-! ### Course mutations (`add_course`, `delete_course`) -/

/-- Result of `add_course` (lines 139-170). -/
inductive AddCourseResult where
  | added
  | replaced
  | notReplaced
  | notLoaded
  deriving DecidableEq, Repr

/-- `add_course` (lines 139-170): gated on the `data_loaded` flag; the id
input is stripped and uppercased, the title input title-cased; an empty
prerequisites input is first replaced by the string `"None"` and the input
is then split on single spaces, each token stripped and empty tokens
dropped.  An existing id asks for replace confirmation (update on `y`,
no-op otherwise); a fresh id is inserted.  The statements run on
`cursor_courses` and the function never commits, so only `pending`
changes. -/
def add_course (st : CourseDB) (dataLoaded : Bool)
    (idIn titleIn creditsIn descIn prereqIn confirmIn : String) :
    CourseDB × AddCourseResult :=
  if dataLoaded then
    let id := pyUpper (pyStrip idIn)
    let title := pyTitle titleIn
    let prereqRaw := if prereqIn == "" then "None" else prereqIn
    let prereqs := ((pySplitSpace prereqRaw).map pyStrip).filter (· ≠ "")
    let joined := String.intercalate ", " prereqs
    if st.pending.any (fun c => c.id == id) then
      if pyLower (pyStrip confirmIn) == "y" then
        ({ st with
            pending := st.pending.map fun c =>
              if c.id == id then
                { c with title := title, credits := creditsIn,
                         description := descIn, prerequisites := joined }
              else c },
         .replaced)
      else (st, .notReplaced)
    else
      ({ st with
          pending := st.pending ++
            [{ id := id, title := title, credits := creditsIn,
               description := descIn, prerequisites := joined }] },
       .added)
  else (st, .notLoaded)

/-- Result of `delete_course` (lines 173-200). -/
inductive DeleteCourseResult where
  | deleted (id : String)
  | canceled
  | invalidChoice
  | invalidInput
  | noCourses
  | notLoaded
  deriving DecidableEq, Repr

/-- `delete_course` (lines 173-200): gated on `data_loaded`; lists the
courses ordered by id, reads a 1-based selection (`none` models a
non-numeric input, whose `int(...)` raises the caught `ValueError`),
bounds-checks it, asks for confirmation and deletes on `y`.  The DELETE
runs on `cursor_courses` with no commit, so only `pending` changes. -/
def delete_course (st : CourseDB) (dataLoaded : Bool)
    (choice : Option Int) (confirmIn : String) : CourseDB × DeleteCourseResult :=
  if dataLoaded then
    let courses := sortByKey st.pending
    if courses.length = 0 then (st, .noCourses)
    else
      match choice with
      | none => (st, .invalidInput)
      | some n =>
        if 1 ≤ n ∧ n ≤ (courses.length : Int) then
          let cid := (courses.getD (n - 1).toNat default).id
          if pyLower confirmIn == "y" then
            ({ st with pending := st.pending.filter (fun c => ¬(c.id == cid)) },
             .deleted cid)
          else (st, .canceled)
        else (st, .invalidChoice)
  else (st, .notLoaded)

/-! ### Display helpers (`word_wrap`, details, list) -/

/-- The wrapping loop of `word_wrap` (lines 208-215). -/
def wrapLines (width : Nat) (current : String) (lines : List String) :
    List String → List String
  | [] => lines ++ [current]
  | w :: ws =>
    if current.length + w.length + 1 ≤ width then
      wrapLines width (current ++ " " ++ w) lines ws
    else wrapLines width w (lines ++ [current]) ws

/-- `word_wrap` (lines 203-216): splits the text on whitespace and starts
from `words[0]`; when the text has no words, `words[0]` raises an uncaught
`IndexError`, modelled as `none`. -/
def word_wrap (text : String) (width : Nat := 80) : Option String :=
  match pySplitWs text with
  | [] => none
  | w :: ws => some (String.intercalate "\n" (wrapLines width w [] ws))

/-- The prerequisites line of `print_course_details` (lines 284-288): the
stored TEXT is compared, lowercased, against the marker `"none"`. -/
def renderPrereqs (p : String) : String :=
  if pyLower p == "none" then "Prerequisites: None" else "Prerequisites: " ++ p

/-- `print_course_details` (lines 276-288): the printed lines, or `none`
when `word_wrap` raises on a description with no words. -/
def print_course_details (c : CourseRec) : Option (List String) :=
  match word_wrap c.description 80 with
  | none => none
  | some wrapped =>
    some ["Course Details:", "ID: " ++ c.id, "Title: " ++ c.title,
          "Credits: " ++ c.credits, "Description: ", wrapped,
          renderPrereqs c.prerequisites]

/-- `print_course_list` (lines 262-273): gated on `data_loaded`; the
`(id, title)` pairs of the stored courses ordered by id. -/
def print_course_list (st : CourseDB) (dataLoaded : Bool) :
    Option (List (String × String)) :=
  if dataLoaded then some ((sortByKey st.pending).map fun c => (c.id, c.title))
  else none

/-! ### Interactive shell pieces (`__main__`, lines 329-451) -/

/-- Initialization of the `data_loaded` flag (lines 330-348).
`sqlite3.connect("user_database.db")` at line 334 creates the database file
when it is missing, so by the time line 345 runs `os.path.exists` the file
always exists: the modelled post-connect existence is `userDbExisted ||
true`.  Consequently the `load_user_data` branch is unreachable and
`data_loaded` — the flag gating every course operation — is `True` from
startup, whatever the prior filesystem state and although no course data
has been loaded. -/
def mainInitDataLoaded (userDbExisted : Bool) (loadUserDataResult : Bool) : Bool :=
  let existsAfterConnect := userDbExisted || true
  if !existsAfterConnect then loadUserDataResult else true

/-- The exit path (option `0`, lines 384-390): answering `y` runs
`conn_courses.commit()` (the pending course transaction becomes durable);
any other answer skips the commit and the process then closes the
connection, discarding the pending transaction.  The returned list is the
stored contents after process exit. -/
def exitStep (st : CourseDB) (saveAnswer : String) : List CourseRec :=
  if pyLower (pyStrip saveAnswer) == "y" then st.pending else st.durable

/-- The login gate in front of options 4/5/6 (lines 391-401): when the
session is already authenticated the operation proceeds at once; otherwise
`login` is driven.  Since `login` only ever returns `True`, the gate's
failure branch is reachable only as `none` (the login loop consumed all
input without a successful attempt and re-prompts forever). -/
def mutatingGate (userAuthenticated : Bool) (users : List UserRec)
    (attempts : List (String × String)) : Option (Bool × List (String × String)) :=
  if userAuthenticated then some (true, attempts)
  else
    match login users attempts with
    | some rest => some (true, rest)
    | none => none

/-- Selecting option 4 (add course) from the main menu: the login gate
followed by `add_course`.  `none` means the shell is still inside the
login loop. -/
def optionFourStep (userAuthenticated : Bool) (users : List UserRec)
    (attempts : List (String × String)) (st : CourseDB) (dataLoaded : Bool)
    (idIn titleIn creditsIn descIn prereqIn confirmIn : String) :
    Option (Bool × CourseDB × AddCourseResult) :=
  match mutatingGate userAuthenticated users attempts with
  | none => none
  | some (auth, _) =>
    some (auth, add_course st dataLoaded idIn titleIn creditsIn descIn prereqIn confirmIn)

/-- Result of the reset branch (option 6, lines 406-418). -/
inductive ResetResult where
  | resetOk
  | resetFailed
  | cancelled
  | invalidAnswer
  deriving DecidableEq, Repr

/-- Option 6 (lines 406-418): on `y`, `conn_courses` is closed (discarding
its pending transaction), the database file is removed (durable contents
cleared), a fresh connection is opened and `load_course_data` reloads the
snapshot, committing on its own connection before returning. -/
def resetStep (st : CourseDB) (confirmIn : String) (snapshot : List (List String)) :
    CourseDB × ResetResult :=
  if pyLower (pyStrip confirmIn) == "y" then
    let d := load_course_data snapshot []
    ({ durable := d.1, pending := d.1 },
     if d.2 = LoadResult.ok then .resetOk else .resetFailed)
  else if pyLower (pyStrip confirmIn) == "n" then (st, .cancelled)
  else (st, .invalidAnswer)

/-- The user-management sub-menu loop (lines 430-443), consuming menu
selections (and, for `B`/`C`, the prompted usernames/passwords) from the
input list.  On `R` it sets `user_authenticated = False` and breaks,
returning the flag value and the user store; `none` models exhausting the
input without ever selecting `R` (the loop keeps prompting). -/
def adminMenuLoop : List String → UserDB → Option (Bool × UserDB)
  | [], _ => none
  | optIn :: rest, db =>
    if pyUpper (pyStrip optIn) == "A" then adminMenuLoop rest db
    else if pyUpper (pyStrip optIn) == "B" then
      match rest with
      | userIn :: passIn :: rest' => adminMenuLoop rest' (add_user db userIn passIn).1
      | _ => none
    else if pyUpper (pyStrip optIn) == "C" then
      match rest with
      | userIn :: rest' => adminMenuLoop rest' (delete_user db userIn).1
      | _ => none
    else if pyUpper (pyStrip optIn) == "R" then some (false, db)
    else adminMenuLoop rest db

/-- Option `*` (lines 421-445): the admin credentials are checked against
the hardcoded `admin`/`admin` pair only; on success `user_authenticated`
is set to `True` and the sub-menu loop runs, on failure the session state
is left as it was. -/
def adminOption (userAuthenticated : Bool) (db : UserDB)
    (adminUserIn adminPassIn : String) (menuInputs : List String) :
    Option (Bool × UserDB) :=
  if pyLower (pyStrip adminUserIn) == "admin" && adminPassIn == "admin" then
    adminMenuLoop menuInputs db
  else some (userAuthenticated, db)

/-! ### Helper lemmas -/

/-- If the insertion loop returns a row list, every snapshot row had at
least 4 fields. -/
theorem insertCourseRows_rows_wellformed :
    ∀ (rows : List (List String)) (acc l : List CourseRec),
      insertCourseRows rows acc = RowsOutcome.rows l → ∀ row ∈ rows, 4 ≤ row.length := by
  intro rows
  induction rows with
  | nil => intro acc l _ row hrow; cases hrow
  | cons r rs ih =>
    intro acc l h row hrow
    rw [insertCourseRows] at h
    by_cases h4 : 4 ≤ r.length
    · simp only [if_pos h4] at h
      by_cases hdup : acc.any (fun d => d.id == (courseOfRow r).id) = true
      · simp only [if_pos hdup] at h; cases h
      · simp only [if_neg hdup] at h
        rcases List.mem_cons.mp hrow with hrow | hrow
        · exact hrow ▸ h4
        · exact ih _ _ h row hrow
    · simp only [if_neg h4] at h; cases h

/-- Splitting an all-whitespace character list on whitespace yields no words. -/
theorem splitWsAux_all_ws :
    ∀ l : List Char, (∀ c ∈ l, c.isWhitespace = true) → splitWsAux l [] = [] := by
  intro l
  induction l with
  | nil => intro _; rfl
  | cons c cs ih =>
    intro h
    have hc := h c (List.mem_cons_self c cs)
    simp only [splitWsAux, hc, if_pos, List.isEmpty_nil, if_true]
    exact ih fun d hd => h d (List.mem_cons_of_mem c hd)

/-- Every `some` result of the user-management loop carries
`user_authenticated = False` (the loop only returns through option `R`,
which clears the flag before breaking). -/
theorem adminMenuLoop_closes_session :
    ∀ (n : Nat) (inputs : List String), inputs.length ≤ n →
      ∀ (db : UserDB) (res : Bool × UserDB),
        adminMenuLoop inputs db = some res → res.1 = false := by
  intro n
  induction n with
  | zero =>
    intro inputs hlen db res h
    have : inputs = [] := List.eq_nil_of_length_eq_zero (Nat.le_zero.mp hlen)
    subst this
    simp [adminMenuLoop] at h
  | succ n ih =>
    intro inputs hlen db res h
    rw [adminMenuLoop.eq_def] at h
    split at h
    · exact Option.noConfusion h
    · rename_i optIn rest
      have hr : rest.length ≤ n := by
        simp only [List.length_cons] at hlen
        omega
      by_cases h1 : (pyUpper (pyStrip optIn) == "A") = true
      · rw [if_pos h1] at h
        exact ih rest hr _ res h
      · rw [if_neg h1] at h
        by_cases h2 : (pyUpper (pyStrip optIn) == "B") = true
        · rw [if_pos h2] at h
          split at h
          · rename_i u p rest2
            refine ih rest2 ?_ _ res h
            simp only [List.length_cons] at hr
            omega
          · exact Option.noConfusion h
        · rw [if_neg h2] at h
          by_cases h3 : (pyUpper (pyStrip optIn) == "C") = true
          · rw [if_pos h3] at h
            split at h
            · rename_i u rest1
              refine ih rest1 ?_ _ res h
              simp only [List.length_cons] at hr
              omega
            · exact Option.noConfusion h
          · rw [if_neg h3] at h
            by_cases h4 : (pyUpper (pyStrip optIn) == "R") = true
            · rw [if_pos h4] at h
              simp only [Option.some.injEq] at h
              rw [← h]
            · rw [if_neg h4] at h
              exact ih rest hr _ res h

/-! ### Claim theorems -/

/-- Claim C2: for every prior store state and every snapshot containing a
row with fewer than 4 fields, the bulk load does not succeed (the caller
gets `False`, or the duplicate-key exception when one fires first) and the
committed store contents are exactly what they were before the call. -/
theorem bulk_load_all_or_nothing (db : List CourseRec) (S : List (List String))
    (h : ∃ row ∈ S, row.length < 4) :
    (load_course_data S db).1 = db ∧ (load_course_data S db).2 ≠ LoadResult.ok := by
  obtain ⟨row, hmem, hlt⟩ := h
  unfold load_course_data
  cases hout : insertCourseRows S [] with
  | rows l =>
    have := insertCourseRows_rows_wellformed S [] l hout row hmem
    omega
  | formatError => exact ⟨rfl, by simp⟩
  | integrityError => exact ⟨rfl, by simp⟩

/-- Witness for C2 at a concrete malformed snapshot and non-empty prior store. -/
theorem bulk_load_all_or_nothing_witness :
    (load_course_data [["X", "Y", "Z"]] [⟨"A", "T", "3", "D", "None"⟩]).1 =
      [⟨"A", "T", "3", "D", "None"⟩] ∧
    (load_course_data [["X", "Y", "Z"]] [⟨"A", "T", "3", "D", "None"⟩]).2 ≠ LoadResult.ok :=
  bulk_load_all_or_nothing _ _ ⟨["X", "Y", "Z"], by simp, by decide⟩

/-- Claim C6: the hardcoded master pair `admin`/`admin` authenticates for
every credential-store state, the empty store included (line 127 checks it
before consulting the store). -/
theorem master_login_always_succeeds (users : List UserRec) :
    loginAttempt users "admin" "admin" = true := by
  have h : pyLower (pyStrip "admin") = "admin" := by decide
  simp [loginAttempt, h]

/-- Claim C7: removing the (normalized) username `admin` always fails with
the protected-identity error and returns the store untouched; removing an
absent username reports not-found; removing any other present username
deletes exactly its rows and commits (durable = pending afterwards). -/
theorem delete_user_spec (db : UserDB) (userIn : String) :
    (pyLower (pyStrip userIn) = "admin" →
      delete_user db userIn = (db, DeleteUserResult.protectedIdentity)) ∧
    (pyLower (pyStrip userIn) ≠ "admin" →
      (db.pending.any (fun u => u.username == pyLower (pyStrip userIn)) = false →
        (delete_user db userIn).2 = DeleteUserResult.notFound ∧
        (delete_user db userIn).1.pending = db.pending) ∧
      (db.pending.any (fun u => u.username == pyLower (pyStrip userIn)) = true →
        (delete_user db userIn).2 = DeleteUserResult.deleted ∧
        (delete_user db userIn).1.pending =
          db.pending.filter (fun u => ¬(u.username == pyLower (pyStrip userIn))) ∧
        (delete_user db userIn).1.durable = (delete_user db userIn).1.pending)) := by
  refine ⟨fun hadmin => ?_, fun hadmin => ⟨fun habs => ?_, fun hpres => ?_⟩⟩
  · simp [delete_user, hadmin]
  · simp [delete_user, hadmin, habs]
  · simp [delete_user, hadmin, hpres]

/-- Witness for C7: deleting ` Admin ` (which normalizes to `admin`) from a
store that contains it still fails with the protected-identity error. -/
theorem delete_user_spec_witness :
    delete_user ⟨[⟨"admin", "pw"⟩], [⟨"admin", "pw"⟩]⟩ " Admin " =
      (⟨[⟨"admin", "pw"⟩], [⟨"admin", "pw"⟩]⟩, DeleteUserResult.protectedIdentity) :=
  (delete_user_spec ⟨[⟨"admin", "pw"⟩], [⟨"admin", "pw"⟩]⟩ " Admin ").1 (by decide)

/-- Claim C8: whenever the administrator sub-menu is entered (master
credentials accepted) and later exited, the session's authentication flag
is `False` on exit, regardless of its value beforehand. -/
theorem admin_return_forces_anonymous (userAuthenticated : Bool) (db : UserDB)
    (adminUserIn adminPassIn : String) (menuInputs : List String)
    (res : Bool × UserDB)
    (hu : pyLower (pyStrip adminUserIn) = "admin") (hp : adminPassIn = "admin")
    (h : adminOption userAuthenticated db adminUserIn adminPassIn menuInputs = some res) :
    res.1 = false := by
  unfold adminOption at h
  rw [hu, hp] at h
  simp only [beq_self_eq_true, Bool.and_self, if_true] at h
  exact adminMenuLoop_closes_session menuInputs.length menuInputs le_rfl db res h

/-- Witness for C8: an authenticated session enters the admin menu, lists
users, returns — and comes back anonymous. -/
theorem admin_return_forces_anonymous_witness :
    adminOption true ⟨[], []⟩ "admin" "admin" ["A", "R"] = some (false, ⟨[], []⟩) ∧
    (false, (⟨[], []⟩ : UserDB)).1 = false :=
  ⟨by decide,
   admin_return_forces_anonymous true ⟨[], []⟩ "admin" "admin" ["A", "R"]
     (false, ⟨[], []⟩) (by decide) rfl (by decide)⟩

/-- Claim C10: displaying course details crashes (uncaught IndexError in
`word_wrap`) exactly when the description has no whitespace-separated
words; with at least one word the display succeeds. -/
theorem details_crash_on_blank_description (c : CourseRec) :
    ((∀ ch ∈ c.description.toList, ch.isWhitespace = true) →
      print_course_details c = none) ∧
    (pySplitWs c.description ≠ [] → (print_course_details c).isSome = true) := by
  constructor
  · intro h
    have hsplit : pySplitWs c.description = [] := splitWsAux_all_ws _ h
    unfold print_course_details word_wrap
    rw [hsplit]
  · intro h
    cases hsplit : pySplitWs c.description with
    | nil => exact absurd hsplit h
    | cons w ws =>
      unfold print_course_details word_wrap
      rw [hsplit]
      rfl

/-- Witness for C10: a course whose description is whitespace-only crashes
the detail display; the spec's sample description displays fine. -/
theorem details_crash_on_blank_description_witness :
    print_course_details ⟨"CS1", "T", "3", "  ", "None"⟩ = none ∧
    (print_course_details ⟨"CS101", "Intro To Cs", "3", "Basics of programming", ""⟩).isSome
      = true :=
  ⟨(details_crash_on_blank_description ⟨"CS1", "T", "3", "  ", "None"⟩).1 (by decide),
   (details_crash_on_blank_description ⟨"CS101", "Intro To Cs", "3", "Basics of programming", ""⟩).2
     (by decide)⟩

/-- If every snapshot row has at least 4 fields and the resulting ids
(together with the accumulator's) are pairwise distinct, the insertion
loop succeeds and appends the converted rows in order. -/
theorem insertCourseRows_ok :
    ∀ (S : List (List String)) (acc : List CourseRec),
      (∀ row ∈ S, 4 ≤ row.length) →
      ((acc ++ S.map courseOfRow).map (fun c => c.id)).Nodup →
      insertCourseRows S acc = RowsOutcome.rows (acc ++ S.map courseOfRow) := by
  intro S
  induction S with
  | nil => intro acc _ _; simp [insertCourseRows]
  | cons r rs ih =>
    intro acc hlen hnodup
    rw [insertCourseRows]
    have h4 : 4 ≤ r.length := hlen r (List.mem_cons_self r rs)
    rw [if_pos h4]
    have hmem : (courseOfRow r).id ∉ acc.map (fun c => c.id) := by
      intro hin
      simp only [List.map_cons, List.map_append, List.nodup_append] at hnodup
      exact hnodup.2.2 hin (List.mem_cons_self _ _)
    have hcond : ¬(acc.any (fun d => d.id == (courseOfRow r).id) = true) := by
      simp only [List.any_eq_true, beq_iff_eq, not_exists]
      intro d hd
      exact hmem (hd.2 ▸ List.mem_map_of_mem (fun c => c.id) hd.1)
    rw [if_neg hcond]
    have hres := ih (acc ++ [courseOfRow r]) (fun row hrow => hlen row (List.mem_cons_of_mem r hrow))
      (by simpa [List.append_assoc] using hnodup)
    simpa [List.append_assoc] using hres

/-- Claim C4 counterexample: this snapshot is valid in the claim's sense
(every row has at least 4 fields), yet bulk-loading it hits the
duplicate-primary-key exception, the prior (empty) store is kept, and the
listing afterwards is not the records of the snapshot. -/
theorem load_then_list_counterexample :
    (∀ row ∈ [["A", "T", "3", "D"], ["A", "U", "4", "E"]], 4 ≤ row.length) ∧
    sortByKey (load_course_data [["A", "T", "3", "D"], ["A", "U", "4", "E"]] []).1 ≠
      sortByKey ([["A", "T", "3", "D"], ["A", "U", "4", "E"]].map courseOfRow) := by
  constructor
  · decide
  · decide

/-- Claim C4 (amended): for every prior store and every snapshot whose rows
all have at least 4 fields and whose ids are pairwise distinct, the bulk
load replaces the whole store with exactly the snapshot's records (nothing
of the prior contents survives), and the listing ordered by key is a
permutation of those records, sorted ascending by id, without duplicates. -/
theorem load_then_list_exact (db : List CourseRec) (S : List (List String))
    (hlen : ∀ row ∈ S, 4 ≤ row.length)
    (hids : (S.map fun row => row.getD 0 "").Nodup) :
    load_course_data S db = (S.map courseOfRow, LoadResult.ok) ∧
    List.Perm (sortByKey (S.map courseOfRow)) (S.map courseOfRow) ∧
    (sortByKey (S.map courseOfRow)).Sorted recLe ∧
    (sortByKey (S.map courseOfRow)).Nodup ∧
    print_course_list ⟨S.map courseOfRow, S.map courseOfRow⟩ true =
      some ((sortByKey (S.map courseOfRow)).map fun c => (c.id, c.title)) := by
  have hmapids : (S.map courseOfRow).map (fun c => c.id) = S.map fun row => row.getD 0 "" := by
    rw [List.map_map]; rfl
  have hrecids : ((S.map courseOfRow).map (fun c => c.id)).Nodup := hmapids ▸ hids
  have hrecnodup : (S.map courseOfRow).Nodup := List.Nodup.of_map _ hrecids
  refine ⟨?_, List.perm_insertionSort recLe _, List.sorted_insertionSort recLe _,
    ((List.perm_insertionSort recLe _).nodup_iff).mpr hrecnodup, rfl⟩
  unfold load_course_data
  rw [insertCourseRows_ok S [] hlen (by simpa using hrecids)]
  simp

/-- Witness for the amended C4 at a concrete snapshot (distinct ids, one
row with and one without a prerequisites field) and a non-empty prior
store. -/
theorem load_then_list_exact_witness :
    load_course_data [["B", "Second", "3", "Bdesc"], ["A", "First", "4", "Adesc", "X Y"]]
        [⟨"Z", "Old", "1", "Odesc", "None"⟩] =
      ([["B", "Second", "3", "Bdesc"], ["A", "First", "4", "Adesc", "X Y"]].map courseOfRow,
        LoadResult.ok) ∧
    List.Perm
      (sortByKey ([["B", "Second", "3", "Bdesc"],
        ["A", "First", "4", "Adesc", "X Y"]].map courseOfRow))
      ([["B", "Second", "3", "Bdesc"], ["A", "First", "4", "Adesc", "X Y"]].map courseOfRow) ∧
    (sortByKey ([["B", "Second", "3", "Bdesc"],
      ["A", "First", "4", "Adesc", "X Y"]].map courseOfRow)).Sorted recLe ∧
    (sortByKey ([["B", "Second", "3", "Bdesc"],
      ["A", "First", "4", "Adesc", "X Y"]].map courseOfRow)).Nodup ∧
    print_course_list
        ⟨[["B", "Second", "3", "Bdesc"], ["A", "First", "4", "Adesc", "X Y"]].map courseOfRow,
          [["B", "Second", "3", "Bdesc"], ["A", "First", "4", "Adesc", "X Y"]].map courseOfRow⟩
        true =
      some ((sortByKey ([["B", "Second", "3", "Bdesc"],
        ["A", "First", "4", "Adesc", "X Y"]].map courseOfRow)).map fun c => (c.id, c.title)) :=
  load_then_list_exact [⟨"Z", "Old", "1", "Odesc", "None"⟩]
    [["B", "Second", "3", "Bdesc"], ["A", "First", "4", "Adesc", "X Y"]]
    (by decide) (by decide)

/-- Claim C1 counterexample: `add_course` reports success, but only the
connection's pending transaction changed; the stored contents after exit
then differ between answering Y and answering N at the save prompt, so the
prompt is not a no-op. -/
theorem save_prompt_has_effect :
    (add_course ⟨[], []⟩ true "cs101" "Intro" "3" "desc" "" "").2 = AddCourseResult.added ∧
    exitStep (add_course ⟨[], []⟩ true "cs101" "Intro" "3" "desc" "" "").1 "y" ≠
      exitStep (add_course ⟨[], []⟩ true "cs101" "Intro" "3" "desc" "" "").1 "n" := by
  decide

/-- Claim C1 (amended): credential add and credential remove commit before
returning (durable equals the transaction view afterwards, except on the
protected-identity early return, which changes nothing), and a confirmed
reset commits through its own connection; but course add/replace and
course delete never commit — the durable contents when they return are
exactly the durable contents before — so those changes persist only if the
user answers Y at the exit prompt. -/
theorem commit_discipline (st : CourseDB) (dataLoaded : Bool)
    (i1 i2 i3 i4 i5 i6 : String) (choice : Option Int) (confirmIn : String)
    (udb : UserDB) (u p : String) (S : List (List String)) :
    (add_course st dataLoaded i1 i2 i3 i4 i5 i6).1.durable = st.durable ∧
    (delete_course st dataLoaded choice confirmIn).1.durable = st.durable ∧
    (add_user udb u p).1.durable = (add_user udb u p).1.pending ∧
    ((delete_user udb u).2 ≠ DeleteUserResult.protectedIdentity →
      (delete_user udb u).1.durable = (delete_user udb u).1.pending) ∧
    ((pyLower (pyStrip confirmIn) == "y") = true →
      (resetStep st confirmIn S).1.durable = (resetStep st confirmIn S).1.pending) := by
  refine ⟨?_, ?_, ?_, ?_, ?_⟩
  · unfold add_course
    dsimp only []
    split_ifs <;> rfl
  · unfold delete_course
    rcases choice with _ | n <;> dsimp only [] <;> split_ifs <;> rfl
  · unfold add_user
    dsimp only []
    split_ifs <;> rfl
  · intro hne
    unfold delete_user at hne ⊢
    dsimp only [] at hne ⊢
    split_ifs at hne ⊢ <;> first | rfl | exact absurd rfl hne
  · intro hy
    unfold resetStep
    rw [if_pos hy]

/-- Witness for the amended C1: a committed credential deletion and a
confirmed reset, both leaving durable equal to pending. -/
theorem commit_discipline_witness :
    (delete_user ⟨[⟨"bob", "pw"⟩], [⟨"bob", "pw"⟩]⟩ "bob").1.durable =
      (delete_user ⟨[⟨"bob", "pw"⟩], [⟨"bob", "pw"⟩]⟩ "bob").1.pending ∧
    (resetStep ⟨[], [⟨"A", "T", "3", "D", "None"⟩]⟩ "y" [["A", "T", "3", "D"]]).1.durable =
      (resetStep ⟨[], [⟨"A", "T", "3", "D", "None"⟩]⟩ "y" [["A", "T", "3", "D"]]).1.pending :=
  ⟨(commit_discipline ⟨[], []⟩ true "" "" "" "" "" "" none "y"
      ⟨[⟨"bob", "pw"⟩], [⟨"bob", "pw"⟩]⟩ "bob" "p" [["A", "T", "3", "D"]]).2.2.2.1 (by decide),
   (commit_discipline ⟨[], [⟨"A", "T", "3", "D", "None"⟩]⟩ true "" "" "" "" "" "" none "y"
      ⟨[], []⟩ "u" "p" [["A", "T", "3", "D"]]).2.2.2.2 (by decide)⟩

/-- Claim C3 (code bug): `data_loaded` is `True` from startup whatever the
prior filesystem state — connecting to the user database creates its file
before the existence check at line 345 — so a mutating course operation
proceeds (here: inserts a course) although no course load has ever
happened in this process, instead of failing with the not-loaded error. -/
theorem notloaded_gate_never_fires :
    (∀ existedBefore loadUserResult,
      mainInitDataLoaded existedBefore loadUserResult = true) ∧
    (add_course ⟨[], []⟩ (mainInitDataLoaded false false)
        "cs101" "Intro" "3" "desc" "" "").2 = AddCourseResult.added ∧
    (add_course ⟨[], []⟩ (mainInitDataLoaded false false)
        "cs101" "Intro" "3" "desc" "" "").1.pending ≠ [] := by
  refine ⟨fun e r => ?_, by decide, by decide⟩
  cases e <;> rfl

/-- The spec's own C5 scenario row: a present but empty 5th field. -/
def specScenarioRow : List String := ["CS101", "Intro to CS", "3", "Basics of programming", ""]

/-- Claim C5 (code bug): at the spec's scenario row the stored
prerequisites TEXT is the empty string, and the detail view prints a bare
`Prerequisites: ` rather than `Prerequisites: None`; a row with no 5th
field stores `N, o, n, e` — the characters of the string `"None"` joined
by `', '` — rather than an empty sequence; only a row whose 5th field is
non-empty stores the comma-joined whitespace tokens as intended. -/
theorem prereq_none_rendering_bug :
    (courseOfRow specScenarioRow).prerequisites = "" ∧
    renderPrereqs (courseOfRow specScenarioRow).prerequisites = "Prerequisites: " ∧
    renderPrereqs (courseOfRow specScenarioRow).prerequisites ≠ "Prerequisites: None" ∧
    (courseOfRow ["CS102", "Data Structures", "4", "Stacks"]).prerequisites = "N, o, n, e" ∧
    (courseOfRow ["CS101", "Intro", "3", "Desc", "CS100 CS102"]).prerequisites =
      "CS100, CS102" := by
  decide

/-- Claim C9 counterexample: with an anonymous session the first login
attempt fails, yet the pending add is not aborted and no control returns —
the loop re-prompts, a later successful attempt authenticates, and the
operation proceeds. -/
theorem failed_login_attempt_does_not_abort :
    loginAttempt [] "bad" "creds" = false ∧
    optionFourStep false [] [("bad", "creds"), ("admin", "admin")] ⟨[], []⟩ true
        "cs101" "Intro" "3" "desc" "" "" =
      some (true, ⟨[], [⟨"CS101", "Intro", "3", "desc", "None"⟩]⟩, AddCourseResult.added) := by
  decide

/-- Claim C9 (amended): a mutating selection while anonymous drives the
login prompt; the prompt loop returns exactly when some attempt succeeds
(and never returns otherwise — there is no abort path), and on success the
session is authenticated and the pending operation proceeds. -/
theorem login_gate_spec (users : List UserRec) (attempts : List (String × String)) :
    (login users attempts = none ↔
      ∀ a ∈ attempts, loginAttempt users a.1 a.2 = false) ∧
    (∀ (st : CourseDB) (dataLoaded : Bool) (i1 i2 i3 i4 i5 i6 : String),
      (optionFourStep false users attempts st dataLoaded i1 i2 i3 i4 i5 i6 = none ↔
        login users attempts = none) ∧
      (∀ rest, login users attempts = some rest →
        optionFourStep false users attempts st dataLoaded i1 i2 i3 i4 i5 i6 =
          some (true, add_course st dataLoaded i1 i2 i3 i4 i5 i6))) := by
  constructor
  · induction attempts with
    | nil => simp [login]
    | cons a rest ih =>
      obtain ⟨u, p⟩ := a
      by_cases h : loginAttempt users u p = true
      · simp [login, h]
      · simp only [Bool.not_eq_true] at h
        simp [login, h, ih]
  · intro st dataLoaded i1 i2 i3 i4 i5 i6
    constructor
    · cases hl : login users attempts with
      | none => simp [optionFourStep, mutatingGate, hl]
      | some rest => simp [optionFourStep, mutatingGate, hl]
    · intro rest hrest
      simp [optionFourStep, mutatingGate, hrest]

/-- Witness for the amended C9: no attempt in an all-bad stream succeeds
and the gate never returns; a master-credential attempt lets the add
proceed with the session authenticated. -/
theorem login_gate_spec_witness :
    (login [] [("bad", "creds")] = none ↔
      ∀ a ∈ [("bad", "creds")], loginAttempt [] a.1 a.2 = false) ∧
    optionFourStep false [] [("admin", "admin")] ⟨[], []⟩ true "c" "t" "3" "d" "" "" =
      some (true, add_course ⟨[], []⟩ true "c" "t" "3" "d" "" "") :=
  ⟨(login_gate_spec [] [("bad", "creds")]).1,
   ((login_gate_spec [] [("admin", "admin")]).2 ⟨[], []⟩ true "c" "t" "3" "d" "" "").2 []
     (by decide)⟩
